import Mathlib

/-!
Shallow embedding of the cache-and-session access layer of the MTG price
tracker dashboard (`streamlit_app.py`), together with theorems checking the
specification's claims about it.

The embedding models:
* `get_snowflake_session` (lines 13-32): try the ambient session, fall back
  to credential-based construction, and on double failure show an error and
  stop the render pass;
* the three cached query operations `search_cards`, `get_card_prices` and
  `get_price_after_launch` (lines 35-74), each wrapped in
  `st.cache_data(ttl=86400)`;
* the cache-clear button (`st.cache_data.clear()`, lines 125-128);
* the top-level render pass (session acquisition at line 77 followed by the
  three query sections).

External effects are made explicit: an `Env` supplies the outcome of the two
session-acquisition paths and of SQL execution, and results carry counters
for session acquisitions and SQL fetches plus the list of user-visible error
messages emitted.
-/

namespace MtgApp

/-- A tabular result (pandas DataFrame): a list of rows, each row a list of
(column name, value) pairs. -/
structure DataFrame where
  rows : List (List (String × String))
deriving DecidableEq

/-- `pd.DataFrame()`: the empty tabular result. -/
def DataFrame.empty : DataFrame := ⟨[]⟩

/-- `df.empty` in pandas: true when the frame has zero rows. -/
def DataFrame.isEmpty (df : DataFrame) : Bool := df.rows.isEmpty

/-- The external world as seen by the app: whether `get_active_session()`
yields a handle, whether `Session.builder.configs(...).create()` from
`st.secrets` yields a handle, and what executing a SQL string on a given
handle returns (`Except.error` models a raised exception). -/
structure Env where
  activeSession : Option Nat
  secretsSession : Option Nat
  sqlExec : Nat → String → Except String DataFrame

/-- Outcome of `get_snowflake_session`: either a handle with its provenance
message, or the pass was halted by `st.stop()`. -/
inductive SessionOutcome where
  | ok (handle : Nat) (message : String)
  | halted
deriving DecidableEq

/-- Trace of one `get_snowflake_session()` call: its outcome, how many times
each acquisition path was attempted, and the error messages shown. -/
structure AcquireTrace where
  result : SessionOutcome
  primaryAttempts : Nat
  fallbackAttempts : Nat
  errorsShown : List String
deriving DecidableEq

/-- `get_snowflake_session` (lines 13-32): try `get_active_session()`; on
failure try building a session from the six `st.secrets` connection
parameters; on failure of both, `st.error(...)` then `st.stop()`. -/
def get_snowflake_session (env : Env) : AcquireTrace :=
  match env.activeSession with
  | some h => ⟨.ok h "Connected using active Snowflake session", 1, 0, []⟩
  | none =>
    match env.secretsSession with
    | some h => ⟨.ok h "Connected to Snowflake using credentials", 1, 1, []⟩
    | none => ⟨.halted, 1, 1, ["Failed to connect to Snowflake"]⟩

/-- Python `str.lower()`: lower-case every character. -/
def lower (s : String) : String := ⟨s.data.map Char.toLower⟩

/-- A single-quote character, as a string. -/
def sq : String := "\x27"

/-- The SQL text built by `search_cards` (line 40): the raw terms are
interpolated verbatim into the f-string template. -/
def search_query (t1 t2 : String) : String :=
  "SELECT * FROM TABLE(MTG_COST.PUBLIC.GET_CARD_ID(" ++ sq ++ t1 ++ sq ++ ", " ++ sq ++ t2 ++ sq ++ ")) LIMIT 1000"

/-- The SQL text built by `get_card_prices` (line 54). -/
def prices_query (cardId : String) : String :=
  "SELECT * FROM TABLE(MTG_COST.PUBLIC.GET_CARD_PRICES(" ++ sq ++ cardId ++ sq ++ "))"

/-- The SQL text built by `get_price_after_launch` (line 68). -/
def launch_query : String := "SELECT * FROM price_after_launch"

/-- Outcome of a call: either a DataFrame returned normally, or an uncaught
exception (the `st.stop()` of a failed session acquisition) propagated. -/
inductive OpOutcome where
  | ok (df : DataFrame)
  | raised
deriving DecidableEq

/-- Result of running a cached function's body once (a cache miss):
counters record how many session acquisitions and SQL executions happened,
`sqlSent` the SQL strings handed to the executor, `errorsShown` the error
banners emitted. -/
structure BodyResult where
  outcome : OpOutcome
  sessionCalls : Nat
  fetchesRun : Nat
  sqlSent : List String
  errorsShown : List String
deriving DecidableEq

/-- Body of `search_cards` (lines 36-46): acquire a session (outside the
`try`), then run the search query; a raised SQL exception is caught,
an error banner is shown, and an empty DataFrame is returned. -/
def search_cards_body (env : Env) (t1 t2 : String) : BodyResult :=
  match (get_snowflake_session env).result with
  | .halted => ⟨.raised, 1, 0, [], (get_snowflake_session env).errorsShown⟩
  | .ok h _ =>
    match env.sqlExec h (search_query t1 t2) with
    | .ok df => ⟨.ok df, 1, 1, [search_query t1 t2], []⟩
    | .error e => ⟨.ok DataFrame.empty, 1, 1, [search_query t1 t2], ["Error searching cards: " ++ e]⟩

/-- Body of `get_card_prices` (lines 50-60). -/
def get_card_prices_body (env : Env) (cardId : String) : BodyResult :=
  match (get_snowflake_session env).result with
  | .halted => ⟨.raised, 1, 0, [], (get_snowflake_session env).errorsShown⟩
  | .ok h _ =>
    match env.sqlExec h (prices_query cardId) with
    | .ok df => ⟨.ok df, 1, 1, [prices_query cardId], []⟩
    | .error e => ⟨.ok DataFrame.empty, 1, 1, [prices_query cardId], ["Error querying data: " ++ e]⟩

/-- Body of `get_price_after_launch` (lines 64-74). -/
def get_price_after_launch_body (env : Env) : BodyResult :=
  match (get_snowflake_session env).result with
  | .halted => ⟨.raised, 1, 0, [], (get_snowflake_session env).errorsShown⟩
  | .ok h _ =>
    match env.sqlExec h launch_query with
    | .ok df => ⟨.ok df, 1, 1, [launch_query], []⟩
    | .error e => ⟨.ok DataFrame.empty, 1, 1, [launch_query], ["Error querying price after launch data: " ++ e]⟩

/-- A cache key: the cached function's name together with its ordered
argument values, which is what `st.cache_data` keys entries on. -/
abbrev CacheKey := String × List String

/-- Cache key of a `search_cards(t1, t2)` call. -/
def searchKey (t1 t2 : String) : CacheKey := ("search_cards", [t1, t2])

/-- Cache key of a `get_card_prices(cardId)` call. -/
def pricesKey (cardId : String) : CacheKey := ("get_card_prices", [cardId])

/-- Cache key of a `get_price_after_launch()` call (no parameters). -/
def launchKey : CacheKey := ("get_price_after_launch", [])

/-- One cache entry: key, stored result, insertion timestamp (seconds). -/
structure CacheEntry where
  key : CacheKey
  value : DataFrame
  insertedAt : Nat
deriving DecidableEq

/-- Modelled from the spec: the process-wide store behind `st.cache_data`
(library code, not part of this repository). It maps cache keys to stored
results with insertion timestamps. -/
structure Cache where
  entries : List CacheEntry
deriving DecidableEq

/-- The TTL passed to `st.cache_data` for `search_cards` (line 35). -/
def ttlSearch : Nat := 86400

/-- The TTL passed to `st.cache_data` for `get_card_prices` (line 49). -/
def ttlPrices : Nat := 86400

/-- The TTL passed to `st.cache_data` for `get_price_after_launch`
(line 63). -/
def ttlLaunch : Nat := 86400

/-- Find the entry stored under a key, ignoring expiry. -/
def Cache.lookupEntry : List CacheEntry → CacheKey → Option CacheEntry
  | [], _ => none
  | e :: rest, k => if e.key = k then some e else Cache.lookupEntry rest k

/-- Modelled from the spec: a read of the `st.cache_data` store. An entry is
served only while `now - insertedAt < ttl`; expiry is checked lazily at read
time. -/
def Cache.lookup (c : Cache) (k : CacheKey) (ttl now : Nat) : Option DataFrame :=
  match Cache.lookupEntry c.entries k with
  | some e => if now - e.insertedAt < ttl then some e.value else none
  | none => none

/-- Store a result under a key at the current time (newest entry wins). -/
def Cache.insert (c : Cache) (k : CacheKey) (df : DataFrame) (now : Nat) : Cache :=
  ⟨⟨k, df, now⟩ :: c.entries⟩

/-- `st.cache_data.clear()` (line 126): remove every entry of every cached
function, regardless of key or age. -/
def cache_data_clear (_c : Cache) : Cache := ⟨[]⟩

/-- Result of calling a `st.cache_data`-wrapped function: the value returned
(or `.error ()` if an exception propagated), the cache afterwards, and the
effect counters of this call. -/
structure CachedResult where
  outcome : OpOutcome
  cache : Cache
  sessionCalls : Nat
  fetchesRun : Nat
  sqlSent : List String
  errorsShown : List String
deriving DecidableEq

/-- Modelled from the spec: the `st.cache_data` wrapper. On a hit the stored
result is returned and the body does not run (no session, no fetch); on a
miss the body runs, and its result is stored only when it returns normally —
an exception propagates and caches nothing. -/
def cachedOp (key : CacheKey) (ttl : Nat) (body : BodyResult) (cache : Cache) (now : Nat) : CachedResult :=
  match cache.lookup key ttl now with
  | some df => ⟨.ok df, cache, 0, 0, [], []⟩
  | none =>
    match body.outcome with
    | .ok df => ⟨.ok df, cache.insert key df now, body.sessionCalls, body.fetchesRun, body.sqlSent, body.errorsShown⟩
    | .raised => ⟨.raised, cache, body.sessionCalls, body.fetchesRun, body.sqlSent, body.errorsShown⟩

/-- `search_cards` as called through its `st.cache_data(ttl=86400)`
decorator (lines 35-46). -/
def search_cards (env : Env) (t1 t2 : String) (cache : Cache) (now : Nat) : CachedResult :=
  cachedOp (searchKey t1 t2) ttlSearch (search_cards_body env t1 t2) cache now

/-- `get_card_prices` as called through its decorator (lines 49-60). -/
def get_card_prices (env : Env) (cardId : String) (cache : Cache) (now : Nat) : CachedResult :=
  cachedOp (pricesKey cardId) ttlPrices (get_card_prices_body env cardId) cache now

/-- `get_price_after_launch` as called through its decorator
(lines 63-74). -/
def get_price_after_launch (env : Env) (cache : Cache) (now : Nat) : CachedResult :=
  cachedOp launchKey ttlLaunch (get_price_after_launch_body env) cache now

/-- The UI lower-cases both raw text inputs before calling `search_cards`
(lines 110 and 118): the key actually used for raw inputs. -/
def uiSearchKey (raw1 raw2 : String) : CacheKey :=
  searchKey (lower raw1) (lower raw2)

/-- The search section's call as wired in the UI (lines 110, 118, 135):
`search_cards` applied to the lower-cased raw inputs. -/
def uiSearch (env : Env) (raw1 raw2 : String) (cache : Cache) (now : Nat) : CachedResult :=
  search_cards env (lower raw1) (lower raw2) cache now

/-- The widget inputs of one render pass. -/
structure RenderInput where
  searchButton : Bool
  term1raw : String
  term2raw : String
  cardId : String

/-- Observable outcome of one render pass: whether it halted, the cache
afterwards, how often the top-level session acquisition ran, how many SQL
fetches ran, and the error banners shown. -/
structure RenderResult where
  halted : Bool
  cache : Cache
  topSessionCalls : Nat
  fetchesRun : Nat
  errorsShown : List String

/-- One top-to-bottom render pass of the script: the unconditional
`get_snowflake_session()` at line 77, then the search section (guarded by
line 130), the price section (guarded by line 200), and the launch section
(line 299, unguarded). A propagating `st.stop()` halts the pass. -/
def renderPass (env : Env) (inp : RenderInput) (cache : Cache) (now : Nat) : RenderResult :=
  match (get_snowflake_session env).result with
  | .halted => ⟨true, cache, 1, 0, (get_snowflake_session env).errorsShown⟩
  | .ok _ _ =>
    let t1 := lower inp.term1raw
    let t2 := lower inp.term2raw
    let r1 : CachedResult :=
      if inp.searchButton || (!t1.isEmpty && !t2.isEmpty) then
        search_cards env t1 t2 cache now
      else
        ⟨.ok DataFrame.empty, cache, 0, 0, [], []⟩
    match r1.outcome with
    | .raised => ⟨true, r1.cache, 1, r1.fetchesRun, r1.errorsShown⟩
    | .ok _ =>
      let r2 : CachedResult :=
        if !inp.cardId.isEmpty then
          get_card_prices env inp.cardId r1.cache now
        else
          ⟨.ok DataFrame.empty, r1.cache, 0, 0, [], []⟩
      match r2.outcome with
      | .raised => ⟨true, r2.cache, 1, r1.fetchesRun + r2.fetchesRun, r1.errorsShown ++ r2.errorsShown⟩
      | .ok _ =>
        let r3 := get_price_after_launch env r2.cache now
        match r3.outcome with
        | .raised => ⟨true, r3.cache, 1, r1.fetchesRun + r2.fetchesRun + r3.fetchesRun, r1.errorsShown ++ r2.errorsShown ++ r3.errorsShown⟩
        | .ok _ => ⟨false, r3.cache, 1, r1.fetchesRun + r2.fetchesRun + r3.fetchesRun, r1.errorsShown ++ r2.errorsShown ++ r3.errorsShown⟩

/-- Concrete environment: ambient session available, every SQL query
succeeds with a one-row result. -/
def envOk : Env :=
  ⟨some 0, none, fun _ _ => .ok ⟨[[("NAME", "Vivi Ornitier")]]⟩⟩

/-- Concrete environment: ambient session unavailable, credentials work,
every SQL query succeeds with the empty result. -/
def envFallback : Env :=
  ⟨none, some 7, fun _ _ => .ok DataFrame.empty⟩

/-- Concrete environment: both session paths fail. -/
def envNoConn : Env :=
  ⟨none, none, fun _ _ => .ok DataFrame.empty⟩

/-- Concrete environment: session available, every SQL execution raises. -/
def envSqlFail : Env :=
  ⟨some 0, none, fun _ _ => .error "SQL compilation error"⟩

/-- Concrete environment: session available, every query succeeds with a
zero-row result. -/
def envEmptyOk : Env :=
  ⟨some 0, none, fun _ _ => .ok DataFrame.empty⟩

/-- The empty cache. -/
def cache0 : Cache := ⟨[]⟩

/-- A cache already holding an entry for every key a default render pass
uses (inserted at time 0). -/
def cacheFull : Cache :=
  ⟨[⟨searchKey "vivi" "final fantasy", DataFrame.empty, 0⟩,
    ⟨pricesKey "ecc1027a-8c07-44a0-bdde-fa2844cff694", DataFrame.empty, 0⟩,
    ⟨launchKey, DataFrame.empty, 0⟩]⟩

/-- The default widget values of the app (lines 107, 115, 10). -/
def inpDefault : RenderInput :=
  ⟨false, "vivi", "final fantasy", "ecc1027a-8c07-44a0-bdde-fa2844cff694"⟩

theorem Cache.lookup_insert (c : Cache) (k : CacheKey) (df : DataFrame) (t ttl now : Nat) :
    Cache.lookup (Cache.insert c k df t) k ttl now = if now - t < ttl then some df else none := by
  simp [Cache.lookup, Cache.insert, Cache.lookupEntry]

theorem get_snowflake_session_active (env : Env) (h : Nat) (ha : env.activeSession = some h) :
    get_snowflake_session env = ⟨.ok h "Connected using active Snowflake session", 1, 0, []⟩ := by
  simp [get_snowflake_session, ha]

theorem get_snowflake_session_fallback (env : Env) (h : Nat) (ha : env.activeSession = none)
    (hs : env.secretsSession = some h) :
    get_snowflake_session env = ⟨.ok h "Connected to Snowflake using credentials", 1, 1, []⟩ := by
  simp [get_snowflake_session, ha, hs]

theorem get_snowflake_session_bothFail (env : Env) (ha : env.activeSession = none)
    (hs : env.secretsSession = none) :
    get_snowflake_session env = ⟨.halted, 1, 1, ["Failed to connect to Snowflake"]⟩ := by
  simp [get_snowflake_session, ha, hs]

theorem search_cards_body_active (env : Env) (h : Nat) (t1 t2 : String)
    (ha : env.activeSession = some h) :
    search_cards_body env t1 t2 =
      match env.sqlExec h (search_query t1 t2) with
      | .ok df => ⟨.ok df, 1, 1, [search_query t1 t2], []⟩
      | .error e => ⟨.ok DataFrame.empty, 1, 1, [search_query t1 t2], ["Error searching cards: " ++ e]⟩ := by
  simp [search_cards_body, get_snowflake_session, ha]

theorem get_card_prices_body_active (env : Env) (h : Nat) (cardId : String)
    (ha : env.activeSession = some h) :
    get_card_prices_body env cardId =
      match env.sqlExec h (prices_query cardId) with
      | .ok df => ⟨.ok df, 1, 1, [prices_query cardId], []⟩
      | .error e => ⟨.ok DataFrame.empty, 1, 1, [prices_query cardId], ["Error querying data: " ++ e]⟩ := by
  simp [get_card_prices_body, get_snowflake_session, ha]

theorem get_price_after_launch_body_active (env : Env) (h : Nat)
    (ha : env.activeSession = some h) :
    get_price_after_launch_body env =
      match env.sqlExec h launch_query with
      | .ok df => ⟨.ok df, 1, 1, [launch_query], []⟩
      | .error e => ⟨.ok DataFrame.empty, 1, 1, [launch_query], ["Error querying price after launch data: " ++ e]⟩ := by
  simp [get_price_after_launch_body, get_snowflake_session, ha]

theorem cachedOp_hit (key : CacheKey) (ttl : Nat) (body : BodyResult) (cache : Cache) (now : Nat)
    (df : DataFrame) (h : cache.lookup key ttl now = some df) :
    cachedOp key ttl body cache now = ⟨.ok df, cache, 0, 0, [], []⟩ := by
  simp [cachedOp, h]

theorem cachedOp_miss (key : CacheKey) (ttl : Nat) (body : BodyResult) (cache : Cache) (now : Nat)
    (h : cache.lookup key ttl now = none) :
    cachedOp key ttl body cache now =
      match body.outcome with
      | .ok df => ⟨.ok df, cache.insert key df now, body.sessionCalls, body.fetchesRun, body.sqlSent, body.errorsShown⟩
      | .raised => ⟨.raised, cache, body.sessionCalls, body.fetchesRun, body.sqlSent, body.errorsShown⟩ := by
  simp [cachedOp, h]

/-- C1 counterexample: `search_cards` itself does not lower-case its
arguments, so the same terms in different letter casings produce different
cache keys and do not share a cache entry — after `search_cards` with
`"VIVI", "FINAL"` has populated the cache, the call with `"vivi", "final"`
is still a miss that runs the fetch again. -/
theorem C1_search_keys_case_sensitive :
    searchKey "VIVI" "FINAL" ≠ searchKey "vivi" "final" ∧
    (search_cards envOk "vivi" "final"
      ((search_cards envOk "VIVI" "FINAL" cache0 0).cache) 0).fetchesRun = 1 :=
  ⟨by decide, by decide⟩

/-- C1 (amended): lower-casing is the UI caller's responsibility (lines 110
and 118), not `search_cards`'s own; through the UI path, raw inputs that
agree up to letter casing produce the same cache key and the very same
cached call, for every environment, cache and time. -/
theorem C1_ui_search_case_insensitive (r1 r2 s1 s2 : String)
    (h1 : lower r1 = lower s1) (h2 : lower r2 = lower s2) :
    uiSearchKey r1 r2 = uiSearchKey s1 s2 ∧
    ∀ (env : Env) (c : Cache) (now : Nat),
      uiSearch env r1 r2 c now = uiSearch env s1 s2 c now := by
  refine ⟨by simp [uiSearchKey, h1, h2], ?_⟩
  intro env c now
  simp [uiSearch, h1, h2]

/-- C1 amended-claim witness at `"VIVI"/"FINAL"` versus `"vivi"/"final"`. -/
theorem C1_witness :
    uiSearchKey "VIVI" "FINAL" = uiSearchKey "vivi" "final" ∧
    uiSearch envOk "VIVI" "FINAL" cache0 0 = uiSearch envOk "vivi" "final" cache0 0 := by
  have h := C1_ui_search_case_insensitive "VIVI" "FINAL" "vivi" "final" (by decide) (by decide)
  exact ⟨h.1, h.2 envOk cache0 0⟩

/-- C2 counterexample: with a failing SQL executor, `search_cards` does not
propagate the failure — it returns an empty DataFrame normally — and that
empty result IS stored in the cache, so a subsequent call with the same key
within the TTL is a hit that does not re-invoke the fetch. -/
theorem C2_sql_failure_is_cached :
    (search_cards envSqlFail "a" "b" cache0 0).outcome = .ok DataFrame.empty ∧
    Cache.lookup (search_cards envSqlFail "a" "b" cache0 0).cache
      (searchKey "a" "b") ttlSearch 0 = some DataFrame.empty ∧
    (search_cards envSqlFail "a" "b"
      ((search_cards envSqlFail "a" "b" cache0 0).cache) 10).fetchesRun = 0 :=
  ⟨by decide, by decide, by decide⟩

/-- C2 (amended): for every query operation, when its SQL execution raises
on a cache miss, the operation catches the failure, shows an error banner,
and returns an empty tabular result — and this empty result is stored in
the cache under the key like any ordinary result (negative caching of
errors does occur). -/
theorem C2_sql_failure_caught_and_cached (env : Env) (h : Nat) (t1 t2 cardId e : String)
    (c : Cache) (now : Nat)
    (ha : env.activeSession = some h) :
    (env.sqlExec h (search_query t1 t2) = .error e →
      Cache.lookup c (searchKey t1 t2) ttlSearch now = none →
      (search_cards env t1 t2 c now).outcome = .ok DataFrame.empty ∧
      (search_cards env t1 t2 c now).errorsShown = ["Error searching cards: " ++ e] ∧
      Cache.lookup (search_cards env t1 t2 c now).cache
        (searchKey t1 t2) ttlSearch now = some DataFrame.empty) ∧
    (env.sqlExec h (prices_query cardId) = .error e →
      Cache.lookup c (pricesKey cardId) ttlPrices now = none →
      (get_card_prices env cardId c now).outcome = .ok DataFrame.empty ∧
      (get_card_prices env cardId c now).errorsShown = ["Error querying data: " ++ e] ∧
      Cache.lookup (get_card_prices env cardId c now).cache
        (pricesKey cardId) ttlPrices now = some DataFrame.empty) ∧
    (env.sqlExec h launch_query = .error e →
      Cache.lookup c launchKey ttlLaunch now = none →
      (get_price_after_launch env c now).outcome = .ok DataFrame.empty ∧
      (get_price_after_launch env c now).errorsShown =
        ["Error querying price after launch data: " ++ e] ∧
      Cache.lookup (get_price_after_launch env c now).cache
        launchKey ttlLaunch now = some DataFrame.empty) := by
  refine ⟨?_, ?_, ?_⟩
  · intro he hm
    have hb := search_cards_body_active env h t1 t2 ha
    rw [he] at hb
    unfold search_cards
    rw [cachedOp_miss _ _ _ _ _ hm, hb]
    refine ⟨rfl, rfl, ?_⟩
    rw [Cache.lookup_insert]
    have ht : ttlSearch = 86400 := rfl
    rw [ht, if_pos (by omega)]
  · intro he hm
    have hb := get_card_prices_body_active env h cardId ha
    rw [he] at hb
    unfold get_card_prices
    rw [cachedOp_miss _ _ _ _ _ hm, hb]
    refine ⟨rfl, rfl, ?_⟩
    rw [Cache.lookup_insert]
    have ht : ttlPrices = 86400 := rfl
    rw [ht, if_pos (by omega)]
  · intro he hm
    have hb := get_price_after_launch_body_active env h ha
    rw [he] at hb
    unfold get_price_after_launch
    rw [cachedOp_miss _ _ _ _ _ hm, hb]
    refine ⟨rfl, rfl, ?_⟩
    rw [Cache.lookup_insert]
    have ht : ttlLaunch = 86400 := rfl
    rw [ht, if_pos (by omega)]

/-- C2 amended-claim witness, exercising all three operations in a failing
executor environment. -/
theorem C2_witness :
    ((search_cards envSqlFail "x" "y" cache0 5).outcome = .ok DataFrame.empty ∧
     (search_cards envSqlFail "x" "y" cache0 5).errorsShown =
       ["Error searching cards: SQL compilation error"] ∧
     Cache.lookup (search_cards envSqlFail "x" "y" cache0 5).cache
       (searchKey "x" "y") ttlSearch 5 = some DataFrame.empty) ∧
    ((get_card_prices envSqlFail "id1" cache0 5).outcome = .ok DataFrame.empty ∧
     (get_card_prices envSqlFail "id1" cache0 5).errorsShown =
       ["Error querying data: SQL compilation error"] ∧
     Cache.lookup (get_card_prices envSqlFail "id1" cache0 5).cache
       (pricesKey "id1") ttlPrices 5 = some DataFrame.empty) ∧
    ((get_price_after_launch envSqlFail cache0 5).outcome = .ok DataFrame.empty ∧
     (get_price_after_launch envSqlFail cache0 5).errorsShown =
       ["Error querying price after launch data: SQL compilation error"] ∧
     Cache.lookup (get_price_after_launch envSqlFail cache0 5).cache
       launchKey ttlLaunch 5 = some DataFrame.empty) := by
  have hh := C2_sql_failure_caught_and_cached envSqlFail 0 "x" "y" "id1"
    "SQL compilation error" cache0 5 rfl
  exact ⟨hh.1 rfl rfl, hh.2.1 rfl rfl, hh.2.2 rfl rfl⟩

/-- C4: `get_snowflake_session` attempts the ambient session exactly once;
on its failure it makes exactly one fallback attempt from configuration; on
success of either path it returns the handle with the provenance label of
the path that succeeded, and when the primary path fails but the fallback
succeeds no error is surfaced. -/
theorem C4_session_fallback (env : Env) (hdl : Nat) :
    (get_snowflake_session env).primaryAttempts = 1 ∧
    (get_snowflake_session env).fallbackAttempts ≤ 1 ∧
    (env.activeSession = some hdl →
      (get_snowflake_session env).result = .ok hdl "Connected using active Snowflake session" ∧
      (get_snowflake_session env).fallbackAttempts = 0 ∧
      (get_snowflake_session env).errorsShown = []) ∧
    (env.activeSession = none → env.secretsSession = some hdl →
      (get_snowflake_session env).result = .ok hdl "Connected to Snowflake using credentials" ∧
      (get_snowflake_session env).fallbackAttempts = 1 ∧
      (get_snowflake_session env).errorsShown = []) := by
  rcases ha : env.activeSession with _ | h
  · rcases hs : env.secretsSession with _ | h2
    · rw [get_snowflake_session_bothFail env ha hs]
      refine ⟨rfl, by simp, ?_, ?_⟩
      · intro hcontra
        exact Option.noConfusion hcontra
      · intro _ hcontra
        exact Option.noConfusion hcontra
    · rw [get_snowflake_session_fallback env h2 ha hs]
      refine ⟨rfl, by simp, ?_, ?_⟩
      · intro hcontra
        exact Option.noConfusion hcontra
      · intro _ hsome
        injection hsome with he
        subst he
        exact ⟨rfl, rfl, rfl⟩
  · rw [get_snowflake_session_active env h ha]
    refine ⟨rfl, by simp, ?_, ?_⟩
    · intro hsome
      injection hsome with he
      subst he
      exact ⟨rfl, rfl, rfl⟩
    · intro hcontra
      exact Option.noConfusion hcontra

/-- C4 witness: ambient path unavailable, credential fallback succeeds. -/
theorem C4_witness :
    (get_snowflake_session envFallback).result = .ok 7 "Connected to Snowflake using credentials" ∧
    (get_snowflake_session envFallback).fallbackAttempts = 1 ∧
    (get_snowflake_session envFallback).errorsShown = [] :=
  (C4_session_fallback envFallback 7).2.2.2 rfl rfl

/-- C6 counterexample: at the operation's return interface a fetch failure
and a successful zero-row query are NOT distinct — both return the same
empty DataFrame, so the caller cannot distinguish them from the returned
value. -/
theorem C6_failure_and_empty_same_return :
    (search_cards envEmptyOk "a" "b" cache0 0).outcome =
      (search_cards envSqlFail "a" "b" cache0 0).outcome ∧
    (search_cards envSqlFail "a" "b" cache0 0).outcome = .ok DataFrame.empty :=
  ⟨by decide, by decide⟩

/-- C6 (amended): for every query operation, a successful zero-row query
returns an empty tabular result as a normal, non-error value (no error
banner); but a fetch failure is converted to the very same empty return
value, so the two outcomes coincide at the return-value interface and
differ only in the user-visible error message emitted. -/
theorem C6_empty_result_normal (env : Env) (h : Nat) (t1 t2 cardId e : String)
    (c : Cache) (now : Nat) (ha : env.activeSession = some h) :
    (Cache.lookup c (searchKey t1 t2) ttlSearch now = none →
      (env.sqlExec h (search_query t1 t2) = .ok DataFrame.empty →
        (search_cards env t1 t2 c now).outcome = .ok DataFrame.empty ∧
        (search_cards env t1 t2 c now).errorsShown = []) ∧
      (env.sqlExec h (search_query t1 t2) = .error e →
        (search_cards env t1 t2 c now).outcome = .ok DataFrame.empty ∧
        (search_cards env t1 t2 c now).errorsShown = ["Error searching cards: " ++ e])) ∧
    (Cache.lookup c (pricesKey cardId) ttlPrices now = none →
      (env.sqlExec h (prices_query cardId) = .ok DataFrame.empty →
        (get_card_prices env cardId c now).outcome = .ok DataFrame.empty ∧
        (get_card_prices env cardId c now).errorsShown = []) ∧
      (env.sqlExec h (prices_query cardId) = .error e →
        (get_card_prices env cardId c now).outcome = .ok DataFrame.empty ∧
        (get_card_prices env cardId c now).errorsShown = ["Error querying data: " ++ e])) ∧
    (Cache.lookup c launchKey ttlLaunch now = none →
      (env.sqlExec h launch_query = .ok DataFrame.empty →
        (get_price_after_launch env c now).outcome = .ok DataFrame.empty ∧
        (get_price_after_launch env c now).errorsShown = []) ∧
      (env.sqlExec h launch_query = .error e →
        (get_price_after_launch env c now).outcome = .ok DataFrame.empty ∧
        (get_price_after_launch env c now).errorsShown =
          ["Error querying price after launch data: " ++ e])) := by
  refine ⟨?_, ?_, ?_⟩
  · intro hm
    constructor
    · intro he
      have hb := search_cards_body_active env h t1 t2 ha
      rw [he] at hb
      unfold search_cards
      rw [cachedOp_miss _ _ _ _ _ hm, hb]
      exact ⟨rfl, rfl⟩
    · intro he
      have hb := search_cards_body_active env h t1 t2 ha
      rw [he] at hb
      unfold search_cards
      rw [cachedOp_miss _ _ _ _ _ hm, hb]
      exact ⟨rfl, rfl⟩
  · intro hm
    constructor
    · intro he
      have hb := get_card_prices_body_active env h cardId ha
      rw [he] at hb
      unfold get_card_prices
      rw [cachedOp_miss _ _ _ _ _ hm, hb]
      exact ⟨rfl, rfl⟩
    · intro he
      have hb := get_card_prices_body_active env h cardId ha
      rw [he] at hb
      unfold get_card_prices
      rw [cachedOp_miss _ _ _ _ _ hm, hb]
      exact ⟨rfl, rfl⟩
  · intro hm
    constructor
    · intro he
      have hb := get_price_after_launch_body_active env h ha
      rw [he] at hb
      unfold get_price_after_launch
      rw [cachedOp_miss _ _ _ _ _ hm, hb]
      exact ⟨rfl, rfl⟩
    · intro he
      have hb := get_price_after_launch_body_active env h ha
      rw [he] at hb
      unfold get_price_after_launch
      rw [cachedOp_miss _ _ _ _ _ hm, hb]
      exact ⟨rfl, rfl⟩

/-- C6 amended-claim witness: for each of the three operations, a
successful zero-row query is a normal return with no error banner. -/
theorem C6_witness :
    ((search_cards envEmptyOk "q" "r" cache0 0).outcome = .ok DataFrame.empty ∧
     (search_cards envEmptyOk "q" "r" cache0 0).errorsShown = []) ∧
    ((get_card_prices envEmptyOk "id1" cache0 0).outcome = .ok DataFrame.empty ∧
     (get_card_prices envEmptyOk "id1" cache0 0).errorsShown = []) ∧
    ((get_price_after_launch envEmptyOk cache0 0).outcome = .ok DataFrame.empty ∧
     (get_price_after_launch envEmptyOk cache0 0).errorsShown = []) := by
  have hh := C6_empty_result_normal envEmptyOk 0 "q" "r" "id1" "e" cache0 0 rfl
  exact ⟨(hh.1 rfl).1 rfl, (hh.2.1 rfl).1 rfl, (hh.2.2 rfl).1 rfl⟩

/-- C7: a cache entry inserted at time `t` is a hit when read at
`t + TTL - ε` and a miss when read at `t + TTL + ε` (for `1 ≤ ε ≤ TTL`),
and the TTL is fixed uniformly at 24 hours (86400 seconds) for all three
operation kinds. -/
theorem C7_ttl_window (c : Cache) (k : CacheKey) (df : DataFrame) (t ε : Nat)
    (h1 : 1 ≤ ε) (h2 : ε ≤ 86400) :
    Cache.lookup (Cache.insert c k df t) k ttlSearch (t + 86400 - ε) = some df ∧
    Cache.lookup (Cache.insert c k df t) k ttlSearch (t + 86400 + ε) = none ∧
    ttlSearch = 86400 ∧ ttlPrices = 86400 ∧ ttlLaunch = 86400 ∧
    ttlSearch = 24 * 60 * 60 := by
  have ht : ttlSearch = 86400 := rfl
  refine ⟨?_, ?_, rfl, rfl, rfl, by decide⟩
  · rw [Cache.lookup_insert, ht, if_pos (by omega)]
  · rw [Cache.lookup_insert, ht, if_neg (by omega)]

/-- C7 witness at `ε = 1`, insertion time 0. -/
theorem C7_witness :
    Cache.lookup (Cache.insert cache0 launchKey DataFrame.empty 0) launchKey ttlSearch (0 + 86400 - 1)
      = some DataFrame.empty ∧
    Cache.lookup (Cache.insert cache0 launchKey DataFrame.empty 0) launchKey ttlSearch (0 + 86400 + 1)
      = none := by
  have h := C7_ttl_window cache0 launchKey DataFrame.empty 0 1 (by omega) (by omega)
  exact ⟨h.1, h.2.1⟩

theorem cachedOp_miss_fetches (key : CacheKey) (ttl : Nat) (body : BodyResult) (cache : Cache)
    (now : Nat) (h : cache.lookup key ttl now = none) :
    (cachedOp key ttl body cache now).fetchesRun = body.fetchesRun := by
  rw [cachedOp_miss key ttl body cache now h]
  cases hb : body.outcome <;> simp [hb]

theorem search_cards_body_fetches_active (env : Env) (h : Nat) (t1 t2 : String)
    (ha : env.activeSession = some h) :
    (search_cards_body env t1 t2).fetchesRun = 1 := by
  rw [search_cards_body_active env h t1 t2 ha]
  cases hE : env.sqlExec h (search_query t1 t2) <;> simp [hE]

theorem get_card_prices_body_fetches_active (env : Env) (h : Nat) (cardId : String)
    (ha : env.activeSession = some h) :
    (get_card_prices_body env cardId).fetchesRun = 1 := by
  rw [get_card_prices_body_active env h cardId ha]
  cases hE : env.sqlExec h (prices_query cardId) <;> simp [hE]

theorem get_price_after_launch_body_fetches_active (env : Env) (h : Nat)
    (ha : env.activeSession = some h) :
    (get_price_after_launch_body env).fetchesRun = 1 := by
  rw [get_price_after_launch_body_active env h ha]
  cases hE : env.sqlExec h launch_query <;> simp [hE]

theorem search_cards_body_fetches_le (env : Env) (t1 t2 : String) :
    (search_cards_body env t1 t2).fetchesRun ≤ 1 := by
  unfold search_cards_body
  cases hres : (get_snowflake_session env).result with
  | halted => simp [hres]
  | ok h m =>
    simp only [hres]
    cases hE : env.sqlExec h (search_query t1 t2) <;> simp [hE]

theorem get_card_prices_body_fetches_le (env : Env) (cardId : String) :
    (get_card_prices_body env cardId).fetchesRun ≤ 1 := by
  unfold get_card_prices_body
  cases hres : (get_snowflake_session env).result with
  | halted => simp [hres]
  | ok h m =>
    simp only [hres]
    cases hE : env.sqlExec h (prices_query cardId) <;> simp [hE]

theorem get_price_after_launch_body_fetches_le (env : Env) :
    (get_price_after_launch_body env).fetchesRun ≤ 1 := by
  unfold get_price_after_launch_body
  cases hres : (get_snowflake_session env).result with
  | halted => simp [hres]
  | ok h m =>
    simp only [hres]
    cases hE : env.sqlExec h launch_query <;> simp [hE]

theorem cachedOp_second_call (key : CacheKey) (ttl : Nat) (body body2 : BodyResult) (c : Cache)
    (now now2 : Nat) (df : DataFrame)
    (hm : c.lookup key ttl now = none)
    (hok : (cachedOp key ttl body c now).outcome = .ok df)
    (httl : now2 - now < ttl) :
    cachedOp key ttl body2 (cachedOp key ttl body c now).cache now2 =
      ⟨.ok df, (cachedOp key ttl body c now).cache, 0, 0, [], []⟩ := by
  rw [cachedOp_miss key ttl body c now hm] at hok ⊢
  cases hb : body.outcome with
  | raised =>
    rw [hb] at hok
    simp at hok
  | ok df0 =>
    rw [hb] at hok
    dsimp only at hok
    injection hok with hdf
    subst hdf
    have hl : (Cache.insert c key df0 now).lookup key ttl now2 = some df0 := by
      rw [Cache.lookup_insert, if_pos httl]
    exact cachedOp_hit key ttl body2 _ now2 df0 hl

/-- C3: for each of the three operations, when a call misses the cache and
returns a result, a second call with identical parameters within the TTL is
a pure cache hit: it returns the stored result, runs no fetch, acquires no
session, and leaves the cache unchanged; across the two calls the fetch ran
at most once. -/
theorem C3_second_call_within_ttl_is_hit (env : Env) (t1 t2 cardId : String) (c : Cache)
    (now now2 : Nat) (df : DataFrame) (httl : now2 - now < 86400) :
    (Cache.lookup c (searchKey t1 t2) ttlSearch now = none →
      (search_cards env t1 t2 c now).outcome = .ok df →
      search_cards env t1 t2 (search_cards env t1 t2 c now).cache now2 =
        ⟨.ok df, (search_cards env t1 t2 c now).cache, 0, 0, [], []⟩ ∧
      (search_cards env t1 t2 c now).fetchesRun ≤ 1) ∧
    (Cache.lookup c (pricesKey cardId) ttlPrices now = none →
      (get_card_prices env cardId c now).outcome = .ok df →
      get_card_prices env cardId (get_card_prices env cardId c now).cache now2 =
        ⟨.ok df, (get_card_prices env cardId c now).cache, 0, 0, [], []⟩ ∧
      (get_card_prices env cardId c now).fetchesRun ≤ 1) ∧
    (Cache.lookup c launchKey ttlLaunch now = none →
      (get_price_after_launch env c now).outcome = .ok df →
      get_price_after_launch env (get_price_after_launch env c now).cache now2 =
        ⟨.ok df, (get_price_after_launch env c now).cache, 0, 0, [], []⟩ ∧
      (get_price_after_launch env c now).fetchesRun ≤ 1) := by
  refine ⟨?_, ?_, ?_⟩
  · intro hm hok
    constructor
    · exact cachedOp_second_call (searchKey t1 t2) ttlSearch _ _ c now now2 df hm hok httl
    · simp only [search_cards]
      rw [cachedOp_miss_fetches _ _ _ _ _ hm]
      exact search_cards_body_fetches_le env t1 t2
  · intro hm hok
    constructor
    · exact cachedOp_second_call (pricesKey cardId) ttlPrices _ _ c now now2 df hm hok httl
    · simp only [get_card_prices]
      rw [cachedOp_miss_fetches _ _ _ _ _ hm]
      exact get_card_prices_body_fetches_le env cardId
  · intro hm hok
    constructor
    · exact cachedOp_second_call launchKey ttlLaunch _ _ c now now2 df hm hok httl
    · simp only [get_price_after_launch]
      rw [cachedOp_miss_fetches _ _ _ _ _ hm]
      exact get_price_after_launch_body_fetches_le env

/-- C3 witness: a concrete cold call followed by a call one hundred seconds
later, which is served from the cache. -/
theorem C3_witness :
    search_cards envOk "vivi" "final" (search_cards envOk "vivi" "final" cache0 0).cache 100 =
      ⟨.ok ⟨[[("NAME", "Vivi Ornitier")]]⟩, (search_cards envOk "vivi" "final" cache0 0).cache,
        0, 0, [], []⟩ ∧
    (search_cards envOk "vivi" "final" cache0 0).fetchesRun ≤ 1 :=
  ((C3_second_call_within_ttl_is_hit envOk "vivi" "final" "c1" cache0 0 100
    ⟨[[("NAME", "Vivi Ornitier")]]⟩ (by decide)).1 rfl (by decide))

/-- C5: when both session-acquisition paths fail, a user-visible connection
error is surfaced and the render pass halts: no query operation executes its
fetch and the cache is unchanged; a cache-missing `search_cards` call in
such an environment propagates the halt, runs no fetch and caches
nothing. -/
theorem C5_conn_failure_terminal (env : Env) (inp : RenderInput) (t1 t2 : String) (c : Cache)
    (now : Nat) (ha : env.activeSession = none) (hs : env.secretsSession = none) :
    (get_snowflake_session env).result = .halted ∧
    (get_snowflake_session env).errorsShown = ["Failed to connect to Snowflake"] ∧
    (renderPass env inp c now).halted = true ∧
    (renderPass env inp c now).fetchesRun = 0 ∧
    (renderPass env inp c now).cache = c ∧
    (renderPass env inp c now).errorsShown = ["Failed to connect to Snowflake"] ∧
    (Cache.lookup c (searchKey t1 t2) ttlSearch now = none →
      (search_cards env t1 t2 c now).outcome = .raised ∧
      (search_cards env t1 t2 c now).fetchesRun = 0 ∧
      (search_cards env t1 t2 c now).cache = c) := by
  have hg := get_snowflake_session_bothFail env ha hs
  have hrp : renderPass env inp c now = ⟨true, c, 1, 0, ["Failed to connect to Snowflake"]⟩ := by
    unfold renderPass
    rw [hg]
  refine ⟨by rw [hg], by rw [hg], by rw [hrp], by rw [hrp], by rw [hrp], by rw [hrp], ?_⟩
  intro hm
  have hb : search_cards_body env t1 t2 = ⟨.raised, 1, 0, [], ["Failed to connect to Snowflake"]⟩ := by
    unfold search_cards_body
    rw [hg]
  simp only [search_cards]
  rw [cachedOp_miss _ _ _ _ _ hm, hb]
  exact ⟨rfl, rfl, rfl⟩

/-- C5 witness in a concrete double-failure environment. -/
theorem C5_witness :
    (get_snowflake_session envNoConn).result = .halted ∧
    (renderPass envNoConn inpDefault cache0 3).halted = true ∧
    (renderPass envNoConn inpDefault cache0 3).fetchesRun = 0 ∧
    (renderPass envNoConn inpDefault cache0 3).cache = cache0 ∧
    (search_cards envNoConn "a" "b" cache0 3).outcome = .raised := by
  have h := C5_conn_failure_terminal envNoConn inpDefault "a" "b" cache0 3 rfl rfl
  exact ⟨h.1, h.2.2.1, h.2.2.2.1, h.2.2.2.2.1, (h.2.2.2.2.2.2 rfl).1⟩

/-- C8: `st.cache_data.clear()` empties the cache of every entry regardless
of key or age; the next call of each of the three operations is a miss that
invokes the underlying fetch again. -/
theorem C8_clear_all_forces_refetch (c : Cache) (k : CacheKey) (ttl now : Nat) (env : Env)
    (hdl : Nat) (t1 t2 cardId : String) (ha : env.activeSession = some hdl) :
    Cache.lookup (cache_data_clear c) k ttl now = none ∧
    (search_cards env t1 t2 (cache_data_clear c) now).fetchesRun = 1 ∧
    (get_card_prices env cardId (cache_data_clear c) now).fetchesRun = 1 ∧
    (get_price_after_launch env (cache_data_clear c) now).fetchesRun = 1 := by
  refine ⟨rfl, ?_, ?_, ?_⟩
  · simp only [search_cards]
    rw [cachedOp_miss_fetches (searchKey t1 t2) ttlSearch (search_cards_body env t1 t2)
      (cache_data_clear c) now rfl]
    exact search_cards_body_fetches_active env hdl t1 t2 ha
  · simp only [get_card_prices]
    rw [cachedOp_miss_fetches (pricesKey cardId) ttlPrices (get_card_prices_body env cardId)
      (cache_data_clear c) now rfl]
    exact get_card_prices_body_fetches_active env hdl cardId ha
  · simp only [get_price_after_launch]
    rw [cachedOp_miss_fetches launchKey ttlLaunch (get_price_after_launch_body env)
      (cache_data_clear c) now rfl]
    exact get_price_after_launch_body_fetches_active env hdl ha

/-- C8 witness: clearing a populated cache makes the parameterless launch
query a miss that fetches again. -/
theorem C8_witness :
    Cache.lookup (cache_data_clear cacheFull) launchKey ttlLaunch 50 = none ∧
    (get_price_after_launch envOk (cache_data_clear cacheFull) 50).fetchesRun = 1 := by
  have h := C8_clear_all_forces_refetch cacheFull launchKey ttlLaunch 50 envOk 0 "a" "b" "c" rfl
  exact ⟨h.1, h.2.2.2⟩

/-- C9: each operation builds its SQL text by verbatim interpolation of the
raw parameter strings into a fixed template — no escaping, quoting or
binding — and on a cache miss exactly that string is sent to the query
executor. -/
theorem C9_sql_verbatim_interpolation (t1 t2 cardId : String) (env : Env) (h : Nat)
    (ha : env.activeSession = some h) :
    search_query t1 t2 =
      "SELECT * FROM TABLE(MTG_COST.PUBLIC.GET_CARD_ID(" ++ sq ++ t1 ++ sq ++ ", " ++ sq ++ t2 ++ sq ++ ")) LIMIT 1000" ∧
    prices_query cardId =
      "SELECT * FROM TABLE(MTG_COST.PUBLIC.GET_CARD_PRICES(" ++ sq ++ cardId ++ sq ++ "))" ∧
    launch_query = "SELECT * FROM price_after_launch" ∧
    (search_cards_body env t1 t2).sqlSent = [search_query t1 t2] ∧
    (get_card_prices_body env cardId).sqlSent = [prices_query cardId] ∧
    (get_price_after_launch_body env).sqlSent = [launch_query] := by
  refine ⟨rfl, rfl, rfl, ?_, ?_, ?_⟩
  · rw [search_cards_body_active env h t1 t2 ha]
    cases hE : env.sqlExec h (search_query t1 t2) <;> simp [hE]
  · rw [get_card_prices_body_active env h cardId ha]
    cases hE : env.sqlExec h (prices_query cardId) <;> simp [hE]
  · rw [get_price_after_launch_body_active env h ha]
    cases hE : env.sqlExec h launch_query <;> simp [hE]

/-- C9 witness at a term that itself contains a single quote: the quote is
passed through to the SQL text unmodified. -/
theorem C9_witness :
    (search_cards_body envOk ("it" ++ sq ++ "s") "a").sqlSent =
      [search_query ("it" ++ sq ++ "s") "a"] :=
  (C9_sql_verbatim_interpolation ("it" ++ sq ++ "s") "a" "z" envOk 0 rfl).2.2.2.1

/-- C10: every render pass performs the top-level session acquisition
exactly once, before any query operation, regardless of cache contents; if
both acquisition paths fail, the pass halts with the connection error, runs
no fetch, and leaves the cache unchanged — even when every query result is
already cached. -/
theorem C10_unconditional_top_level_session (env : Env) (inp : RenderInput) (c : Cache) (now : Nat) :
    (renderPass env inp c now).topSessionCalls = 1 ∧
    (env.activeSession = none → env.secretsSession = none →
      (renderPass env inp c now).halted = true ∧
      (renderPass env inp c now).fetchesRun = 0 ∧
      (renderPass env inp c now).cache = c ∧
      (renderPass env inp c now).errorsShown = ["Failed to connect to Snowflake"]) := by
  constructor
  · unfold renderPass
    rcases hres : (get_snowflake_session env).result with ⟨h, m⟩ | _
    · simp only [hres]
      split
      · rfl
      · split
        · rfl
        · split <;> rfl
    · simp only [hres]
  · intro ha hs
    have hrp : renderPass env inp c now = ⟨true, c, 1, 0, ["Failed to connect to Snowflake"]⟩ := by
      unfold renderPass
      rw [get_snowflake_session_bothFail env ha hs]
    rw [hrp]
    exact ⟨rfl, rfl, rfl, rfl⟩

/-- C10 witness: with every key already cached, a pass in a double-failure
environment still halts without fetching. -/
theorem C10_witness :
    (renderPass envNoConn inpDefault cacheFull 100).halted = true ∧
    (renderPass envNoConn inpDefault cacheFull 100).fetchesRun = 0 ∧
    (renderPass envNoConn inpDefault cacheFull 100).cache = cacheFull := by
  have h := (C10_unconditional_top_level_session envNoConn inpDefault cacheFull 100).2 rfl rfl
  exact ⟨h.1, h.2.1, h.2.2.1⟩

end MtgApp
